import Mathlib

/-!
# Verification of the chart-screenshot analysis pipeline

Shallow embedding of the analysis orchestration pipeline of this repository:
the `analyzeScreenshot` flow (classify/predict, annotate, disclaim, aggregate),
the `handleAnalyzeScreenshot` server action that validates the payload before
invoking the flow, the client-side history store, and `authenticateUser`.

The three external model calls are abstracted by an `Oracle` record giving each
call's outcome for the request (an exception carrying a message, or a raw
response).  Exceptions in the source are modelled with `Except`; the pipeline
itself is a total function, mirroring the fact that every code path of the flow
is wrapped in `try`/`catch`.  A `CallLog` counts how many times each external
call was made, so that "no model call is attempted" is provable.
-/

namespace Quotex

/-- Direction of a prediction: the zod enum with exactly the values UP and DOWN. -/
inductive Direction : Type
  | UP : Direction
  | DOWN : Direction
deriving DecidableEq, Repr

/-- A schema-validated prediction: `direction` in the enum, `probability` a number
that passed the `min(0).max(1)` bounds check.  Probabilities are embedded as
rationals. -/
structure Prediction where
  direction : Direction
  probability : ℚ
deriving DecidableEq, Repr

/-- A raw, not yet validated prediction object as the external classifier model may
return it: the direction is an arbitrary string and the probability an arbitrary
number, before zod validation. -/
structure RawPrediction where
  direction : String
  probability : ℚ
deriving DecidableEq, Repr

/-- Raw output of the classification prompt before schema validation:
`isValidChart` plus an optional raw prediction object. -/
structure RawAnalysis where
  isValidChart : Bool
  prediction : Option RawPrediction
deriving DecidableEq, Repr

/-- Schema-validated output of the classification prompt
(`analysisPrompt`'s output schema in `analyze-screenshot`). -/
structure Analysis where
  isValidChart : Bool
  prediction : Option Prediction
deriving DecidableEq, Repr

/-- The unified result record `AnalyzeScreenshotResult`: `success`, `isValidChart`,
optional prediction, annotated image, disclaimer and error message.  Fields left
out of a TypeScript object literal are `undefined`, embedded as `none`. -/
structure AnalysisResult where
  success : Bool
  isValidChart : Bool
  prediction : Option Prediction := none
  annotatedImage : Option String := none
  disclaimer : Option String := none
  error : Option String := none
deriving DecidableEq, Repr

/-- Behaviour of the three external model calls for one request.  `Except.error m`
means the call threw with message `m`; `Except.ok none` means the call returned
but with null/absent output; `Except.ok (some r)` is a raw response `r` that the
pipeline still validates. -/
structure Oracle where
  classifyResp : Except String (Option RawAnalysis)
  annotateResp : Except String (Option String)
  disclaimResp : Except String (Option String)
deriving Repr

/-- Number of invocations of each external model call during one run. -/
structure CallLog where
  classifierCalls : Nat
  annotateCalls : Nat
  disclaimerCalls : Nat
deriving DecidableEq, Repr

/-- "No screenshot provided." (Bengali) — returned by the action when the form
field is missing or empty. -/
def noScreenshotMsg : String := "কোনো স্ক্রিনশট প্রদান করা হয়নি।"

/-- The zod refine message of `AnalyzeSchema`: invalid image data URI format. -/
def invalidFormatMsg : String :=
  "অবৈধ চিত্রের ডেটা ইউআরআই ফর্ম্যাট। \"data:image/\" দিয়ে শুরু হতে হবে।"

/-- Fixed rejection message when the image is not a binary-options chart. -/
def notAChartMsg : String :=
  "শুধুমাত্র বাইনারি চার্টের স্ক্রিনশট আপলোড করুন (যেমন Quotex)। অন্য কোনো ছবি (মানুষ, বস্তু ইত্যাদি) গ্রহণ করা হবে না।"

/-- Fixed message when a valid chart was detected but no prediction was returned. -/
def noPredictionMsg : String :=
  "AI বিশ্লেষণ একটি বৈধ চার্টের জন্য পূর্বাভাস দিতে ব্যর্থ হয়েছে৷ অনুগ্রহপূর্বক আবার চেষ্টা করুন."

/-- "An unexpected server error occurred: " — the prefix of the catch-all error
message of the flow, to which the underlying exception message is appended. -/
def serverErrPrefix : String := "একটি অপ্রত্যাশিত সার্ভার ত্রুটি ঘটেছে: "

/-- Fixed fallback disclaimer substituted when disclaimer generation fails. -/
def fallbackDisclaimer : String :=
  "ঝুঁকি সতর্কতা তৈরি করা যায়নি। অনুগ্রহ করে দায়িত্বের সাথে ট্রেড করুন।"

/-- Message of the exception thrown when the analysis prompt output is null. -/
def noOutputMsg : String := "AI analysis prompt returned no output."

/-- Message of the exception thrown inside the annotated-image tool when the model
did not return a valid image data URI. -/
def noImageMsg : String := "AI tool did not return a valid annotated image data URI."

/-- Message of the exception thrown when the disclaimer prompt output is null. -/
def nullDisclaimerMsg : String := "Disclaimer generation prompt returned null output."

/-- Message of the framework exception raised when the classifier's raw output does
not conform to the declared output schema (the framework fails closed on schema
mismatch; the exact wording is framework-determined and nothing below depends
on it). -/
def schemaMismatchMsg : String := "Schema validation failed."

/-- Fixed generic authentication failure message ("Invalid user ID or password."). -/
def authFailedMsg : String := "অবৈধ ব্যবহারকারী আইডি বা পাসওয়ার্ড।"

/-- zod enum parse of a prediction direction: exactly "UP" and "DOWN" are valid. -/
def parseDirection (s : String) : Option Direction :=
  if s = "UP" then some Direction.UP
  else if s = "DOWN" then some Direction.DOWN
  else none

/-- zod validation of the prediction object of `analysisPrompt`'s output schema:
the direction must be in the enum and the probability must satisfy
`min(0).max(1)`. -/
def parsePrediction (rp : RawPrediction) : Option Prediction :=
  match parseDirection rp.direction with
  | none => none
  | some d =>
    if 0 ≤ rp.probability ∧ rp.probability ≤ 1 then some ⟨d, rp.probability⟩ else none

/-- zod validation of the whole `analysisPrompt` output schema: the `prediction`
field is optional, but if present it must itself validate. -/
def parseAnalysis (ra : RawAnalysis) : Option Analysis :=
  match ra.prediction with
  | none => some ⟨ra.isValidChart, none⟩
  | some rp =>
    match parsePrediction rp with
    | none => none
    | some p => some ⟨ra.isValidChart, some p⟩

/-- One invocation of `analysisPrompt`: the external call may throw; otherwise its
raw output (possibly null) is validated against the output schema, the framework
throwing on schema mismatch. -/
def runAnalysisPrompt (o : Oracle) : Except String (Option Analysis) :=
  match o.classifyResp with
  | Except.error e => Except.error e
  | Except.ok none => Except.ok none
  | Except.ok (some ra) =>
    match parseAnalysis ra with
    | none => Except.error schemaMismatchMsg
    | some a => Except.ok (some a)

/-- One invocation of `generateAnnotatedImageTool`: the generate call may throw;
otherwise, if `media.url` is absent or does not start with "data:image", the tool
throws `noImageMsg`; else it returns the URL. -/
def runAnnotateTool (o : Oracle) : Except String String :=
  match o.annotateResp with
  | Except.error e => Except.error e
  | Except.ok none => Except.error noImageMsg
  | Except.ok (some url) =>
    if url.startsWith "data:image" then Except.ok url else Except.error noImageMsg

/-- One invocation of `generateDisclaimer` (via `generateDisclaimerFlow`): the
prompt call may throw; a null output makes the flow throw `nullDisclaimerMsg`;
otherwise the disclaimer string is returned. -/
def runGenerateDisclaimer (o : Oracle) : Except String String :=
  match o.disclaimResp with
  | Except.error e => Except.error e
  | Except.ok none => Except.error nullDisclaimerMsg
  | Except.ok (some d) => Except.ok d

/-- The unified `analyzeScreenshot` flow, paired with the count of external calls
made.  Mirrors the source: run the analysis prompt inside a catch-all
(`Except.error` paths and a null output both end in the catch-all result with
the underlying message appended to `serverErrPrefix`); reject a non-chart with
the fixed message; reject a missing prediction with its distinct message;
otherwise annotate (errors swallowed to `none`) and generate the disclaimer
(errors swallowed to the fixed fallback) and return the success record. -/
def analyzeScreenshotLogged (o : Oracle) (photoDataUri : String) :
    AnalysisResult × CallLog :=
  match runAnalysisPrompt o with
  | Except.error e =>
    ({ success := false, isValidChart := false,
       error := some (serverErrPrefix ++ e) }, ⟨1, 0, 0⟩)
  | Except.ok none =>
    ({ success := false, isValidChart := false,
       error := some (serverErrPrefix ++ noOutputMsg) }, ⟨1, 0, 0⟩)
  | Except.ok (some a) =>
    if a.isValidChart = false then
      ({ success := false, isValidChart := false, error := some notAChartMsg }, ⟨1, 0, 0⟩)
    else
      match a.prediction with
      | none =>
        ({ success := false, isValidChart := true, error := some noPredictionMsg },
         ⟨1, 0, 0⟩)
      | some prediction =>
        let annotatedImage : Option String :=
          match runAnnotateTool o with
          | Except.ok url => some url
          | Except.error _ => none
        let disclaimer : String :=
          match runGenerateDisclaimer o with
          | Except.ok d => d
          | Except.error _ => fallbackDisclaimer
        ({ success := true, isValidChart := true, prediction := some prediction,
           annotatedImage := annotatedImage, disclaimer := some disclaimer },
         ⟨1, 1, 1⟩)

/-- The `analyzeScreenshot` flow's result (the first component of the logged run).
The `photoDataUri` parameter is forwarded to the external calls, which the
`Oracle` abstracts per request. -/
def analyzeScreenshot (o : Oracle) (photoDataUri : String) : AnalysisResult :=
  (analyzeScreenshotLogged o photoDataUri).1

/-- The `handleAnalyzeScreenshot` server action, paired with the call log.  The
form value is `none` when absent; JavaScript treats the empty string as falsy,
so both yield the "no screenshot" rejection.  A payload that does not start
with "data:image/" is rejected by `AnalyzeSchema` with the fixed validation
message; otherwise the flow runs.  (The action's outer catch is unreachable
because the flow never throws.) -/
def handleAnalyzeScreenshotLogged (o : Oracle) (photoDataUri : Option String) :
    AnalysisResult × CallLog :=
  match photoDataUri with
  | none =>
    ({ success := false, isValidChart := false, error := some noScreenshotMsg }, ⟨0, 0, 0⟩)
  | some uri =>
    if uri = "" then
      ({ success := false, isValidChart := false, error := some noScreenshotMsg }, ⟨0, 0, 0⟩)
    else if uri.startsWith "data:image/" = false then
      ({ success := false, isValidChart := false, error := some invalidFormatMsg }, ⟨0, 0, 0⟩)
    else
      analyzeScreenshotLogged o uri

/-- The `handleAnalyzeScreenshot` server action's result. -/
def handleAnalyzeScreenshot (o : Oracle) (photoDataUri : Option String) :
    AnalysisResult :=
  (handleAnalyzeScreenshotLogged o photoDataUri).1

/-- One entry of the client-side analysis history (`AnalysisHistoryItem`). -/
structure HistoryItem where
  id : String
  timestamp : String
  prediction : Prediction
deriving DecidableEq, Repr

/-- The history update performed after a successful analysis:
the source prepends the new item and keeps the first 10 entries. -/
def updateHistory (newItem : HistoryItem) (prev : List HistoryItem) : List HistoryItem :=
  (newItem :: prev).take 10

/-- Loading history from localStorage on mount: an absent key leaves the initial
empty state; a stored value whose parse throws is caught, the corrupted key
removed, and the state stays empty; a parsed value becomes the state. -/
def loadHistory : Option (Except String (List HistoryItem)) → List HistoryItem
  | none => []
  | some (Except.error _) => []
  | some (Except.ok h) => h

/-- Result record of `authenticateUser`. -/
structure AuthenticationResult where
  success : Bool
  error : Option String := none
deriving DecidableEq, Repr

/-- JavaScript `v || d` on an optional environment string: the default is used
when the variable is unset or set to the empty string (both falsy). -/
def envOrDefault (v : Option String) (d : String) : String :=
  match v with
  | none => d
  | some s => if s = "" then d else s

/-- The configured admin user ID: the ADMIN_UID environment variable or "admin". -/
def ADMIN_UID (envUid : Option String) : String := envOrDefault envUid "admin"

/-- The configured admin password: the ADMIN_PASSWORD environment variable or
"password123". -/
def ADMIN_PASSWORD (envPwd : Option String) : String := envOrDefault envPwd "password123"

/-- `authenticateUser`: succeed exactly when both supplied credentials equal the
configured admin credentials; otherwise return the fixed generic failure
message. -/
def authenticateUser (envUid envPwd : Option String) (userId password : String) :
    AuthenticationResult :=
  if userId = ADMIN_UID envUid ∧ password = ADMIN_PASSWORD envPwd then
    { success := true }
  else
    { success := false, error := some authFailedMsg }

/-! ## Concrete request behaviours used to evaluate the definitions -/

/-- A request whose external calls all return empty output. -/
def stubOracle : Oracle :=
  ⟨Except.ok none, Except.ok none, Except.ok none⟩

/-- A request whose classifier says the image is not a chart. -/
def notAChartOracle : Oracle :=
  ⟨Except.ok (some ⟨false, none⟩), Except.ok none, Except.ok none⟩

/-- A request whose classifier says valid chart but returns no prediction. -/
def noPredictionOracle : Oracle :=
  ⟨Except.ok (some ⟨true, none⟩), Except.ok none, Except.ok none⟩

/-- A raw classifier response: valid chart, prediction UP with probability 1. -/
def happyRawAnalysis : RawAnalysis :=
  ⟨true, some ⟨"UP", 1⟩⟩

/-- A request with a good prediction whose annotate call throws. -/
def annotateFailOracle : Oracle :=
  ⟨Except.ok (some happyRawAnalysis), Except.error "boom",
   Except.ok (some "generated disclaimer")⟩

/-- A request with a good prediction whose disclaimer call throws. -/
def disclaimFailOracle : Oracle :=
  ⟨Except.ok (some happyRawAnalysis), Except.ok (some "data:image/png;base64,BBBB"),
   Except.error "boom"⟩

/-- A request whose classifier returns an out-of-contract prediction
(direction outside the enum, probability above 1). -/
def badPredictionOracle : Oracle :=
  ⟨Except.ok (some ⟨true, some ⟨"SIDEWAYS", 2⟩⟩), Except.ok none, Except.ok none⟩

/-- A concrete history entry. -/
def witnessItem : HistoryItem :=
  ⟨"#11", "2026-10-11T00:00:00.000Z", ⟨Direction.UP, 1⟩⟩

/-- A concrete full history of 10 entries. -/
def witnessPrev : List HistoryItem :=
  List.replicate 10 ⟨"#1", "2026-10-10T00:00:00.000Z", ⟨Direction.DOWN, 1⟩⟩

/-! ## Terminal states of the pipeline

The five terminal states of the result aggregator, as shapes of the returned
`AnalysisResult`.  The three `success=false, isValidChart=false` states are
distinguished by their error message: the two fixed validation messages, the
fixed not-a-chart rejection, and the catch-all message built from
`serverErrPrefix`. -/

/-- Terminal state REJECTED_INVALID_INPUT: the payload was rejected before any
model call, with one of the two validation messages. -/
def RejectedInvalidInput (r : AnalysisResult) : Prop :=
  r.success = false ∧ r.isValidChart = false ∧ r.prediction = none ∧
  r.annotatedImage = none ∧ r.disclaimer = none ∧
  (r.error = some noScreenshotMsg ∨ r.error = some invalidFormatMsg)

/-- Terminal state REJECTED_NOT_A_CHART: the classifier said the image is not a
chart; fixed rejection message. -/
def RejectedNotAChart (r : AnalysisResult) : Prop :=
  r.success = false ∧ r.isValidChart = false ∧ r.prediction = none ∧
  r.annotatedImage = none ∧ r.disclaimer = none ∧ r.error = some notAChartMsg

/-- Terminal state REJECTED_NO_PREDICTION: valid chart but missing prediction;
distinct message, and the only failed state with `isValidChart = true`. -/
def RejectedNoPrediction (r : AnalysisResult) : Prop :=
  r.success = false ∧ r.isValidChart = true ∧ r.prediction = none ∧
  r.annotatedImage = none ∧ r.disclaimer = none ∧ r.error = some noPredictionMsg

/-- Terminal state UPSTREAM_FAILURE: an exception was caught by the catch-all and
downgraded to a failed result whose error message carries the underlying
message appended to the fixed prefix. -/
def UpstreamFailure (r : AnalysisResult) : Prop :=
  r.success = false ∧ r.isValidChart = false ∧ r.prediction = none ∧
  r.annotatedImage = none ∧ r.disclaimer = none ∧
  ∃ m, r.error = some (serverErrPrefix ++ m)

/-- Terminal state SUCCESS: a prediction is present, the disclaimer is populated,
and there is no error. -/
def SuccessState (r : AnalysisResult) : Prop :=
  r.success = true ∧ r.isValidChart = true ∧ r.prediction.isSome = true ∧
  r.disclaimer.isSome = true ∧ r.error = none

/-- Exactly one of the five terminal states holds of a result. -/
def ExactlyOneTerminal (r : AnalysisResult) : Prop :=
  (RejectedInvalidInput r ∧ ¬RejectedNotAChart r ∧ ¬RejectedNoPrediction r ∧
    ¬UpstreamFailure r ∧ ¬SuccessState r) ∨
  (¬RejectedInvalidInput r ∧ RejectedNotAChart r ∧ ¬RejectedNoPrediction r ∧
    ¬UpstreamFailure r ∧ ¬SuccessState r) ∨
  (¬RejectedInvalidInput r ∧ ¬RejectedNotAChart r ∧ RejectedNoPrediction r ∧
    ¬UpstreamFailure r ∧ ¬SuccessState r) ∨
  (¬RejectedInvalidInput r ∧ ¬RejectedNotAChart r ∧ ¬RejectedNoPrediction r ∧
    UpstreamFailure r ∧ ¬SuccessState r) ∨
  (¬RejectedInvalidInput r ∧ ¬RejectedNotAChart r ∧ ¬RejectedNoPrediction r ∧
    ¬UpstreamFailure r ∧ SuccessState r)

/-! ## Helper lemmas -/

lemma serverPrefix_append_ne (m s : String)
    (h : s.data.take serverErrPrefix.data.length ≠ serverErrPrefix.data) :
    serverErrPrefix ++ m ≠ s := by
  intro he
  apply h
  have hd : serverErrPrefix.data ++ m.data = s.data := by
    have h2 := congrArg String.data he
    simpa [String.data_append] using h2
  rw [← hd, List.take_left]

lemma noScreenshot_ne_upstream (m : String) : serverErrPrefix ++ m ≠ noScreenshotMsg :=
  serverPrefix_append_ne m _ (by decide)

lemma invalidFormat_ne_upstream (m : String) : serverErrPrefix ++ m ≠ invalidFormatMsg :=
  serverPrefix_append_ne m _ (by decide)

lemma notAChart_ne_upstream (m : String) : serverErrPrefix ++ m ≠ notAChartMsg :=
  serverPrefix_append_ne m _ (by decide)

lemma exactlyOne_noScreenshot :
    ExactlyOneTerminal
      { success := false, isValidChart := false, error := some noScreenshotMsg } := by
  left
  refine ⟨⟨rfl, rfl, rfl, rfl, rfl, Or.inl rfl⟩, ?_, ?_, ?_, ?_⟩
  · rintro ⟨-, -, -, -, -, h⟩
    exact absurd (Option.some.inj h) (by decide)
  · rintro ⟨-, h, -⟩
    exact Bool.noConfusion h
  · rintro ⟨-, -, -, -, -, m, hm⟩
    exact noScreenshot_ne_upstream m (Option.some.inj hm).symm
  · rintro ⟨h, -⟩
    exact Bool.noConfusion h

lemma exactlyOne_invalidFormat :
    ExactlyOneTerminal
      { success := false, isValidChart := false, error := some invalidFormatMsg } := by
  left
  refine ⟨⟨rfl, rfl, rfl, rfl, rfl, Or.inr rfl⟩, ?_, ?_, ?_, ?_⟩
  · rintro ⟨-, -, -, -, -, h⟩
    exact absurd (Option.some.inj h) (by decide)
  · rintro ⟨-, h, -⟩
    exact Bool.noConfusion h
  · rintro ⟨-, -, -, -, -, m, hm⟩
    exact invalidFormat_ne_upstream m (Option.some.inj hm).symm
  · rintro ⟨h, -⟩
    exact Bool.noConfusion h

lemma exactlyOne_notAChart :
    ExactlyOneTerminal
      { success := false, isValidChart := false, error := some notAChartMsg } := by
  right; left
  refine ⟨?_, ⟨rfl, rfl, rfl, rfl, rfl, rfl⟩, ?_, ?_, ?_⟩
  · rintro ⟨-, -, -, -, -, h | h⟩ <;> exact absurd (Option.some.inj h) (by decide)
  · rintro ⟨-, h, -⟩
    exact Bool.noConfusion h
  · rintro ⟨-, -, -, -, -, m, hm⟩
    exact notAChart_ne_upstream m (Option.some.inj hm).symm
  · rintro ⟨h, -⟩
    exact Bool.noConfusion h

lemma exactlyOne_noPrediction :
    ExactlyOneTerminal
      { success := false, isValidChart := true, error := some noPredictionMsg } := by
  right; right; left
  refine ⟨?_, ?_, ⟨rfl, rfl, rfl, rfl, rfl, rfl⟩, ?_, ?_⟩
  · rintro ⟨-, h, -⟩
    exact Bool.noConfusion h
  · rintro ⟨-, h, -⟩
    exact Bool.noConfusion h
  · rintro ⟨-, h, -⟩
    exact Bool.noConfusion h
  · rintro ⟨h, -⟩
    exact Bool.noConfusion h

lemma exactlyOne_upstream (m : String) :
    ExactlyOneTerminal
      { success := false, isValidChart := false,
        error := some (serverErrPrefix ++ m) } := by
  right; right; right; left
  refine ⟨?_, ?_, ?_, ⟨rfl, rfl, rfl, rfl, rfl, m, rfl⟩, ?_⟩
  · rintro ⟨-, -, -, -, -, h | h⟩
    · exact noScreenshot_ne_upstream m (Option.some.inj h)
    · exact invalidFormat_ne_upstream m (Option.some.inj h)
  · rintro ⟨-, -, -, -, -, h⟩
    exact notAChart_ne_upstream m (Option.some.inj h)
  · rintro ⟨-, h, -⟩
    exact Bool.noConfusion h
  · rintro ⟨h, -⟩
    exact Bool.noConfusion h

lemma exactlyOne_success (p : Prediction) (x : Option String) (d : String) :
    ExactlyOneTerminal
      { success := true, isValidChart := true, prediction := some p,
        annotatedImage := x, disclaimer := some d, error := none } := by
  right; right; right; right
  refine ⟨?_, ?_, ?_, ?_, ⟨rfl, rfl, rfl, rfl, rfl⟩⟩ <;>
    (rintro ⟨h, -⟩; exact Bool.noConfusion h)

lemma exactlyOne_analyze (o : Oracle) (u : String) :
    ExactlyOneTerminal (analyzeScreenshot o u) := by
  unfold analyzeScreenshot analyzeScreenshotLogged
  cases hr : runAnalysisPrompt o with
  | error e => exact exactlyOne_upstream e
  | ok oa =>
    cases oa with
    | none => exact exactlyOne_upstream noOutputMsg
    | some a =>
      by_cases hv : a.isValidChart = false
      · simp only [if_pos hv]
        exact exactlyOne_notAChart
      · simp only [if_neg hv]
        cases hp : a.prediction with
        | none => exact exactlyOne_noPrediction
        | some prediction => exact exactlyOne_success prediction _ _

lemma analyze_success_disclaimer (o : Oracle) (u : String)
    (h : (analyzeScreenshot o u).success = true) :
    (analyzeScreenshot o u).disclaimer.isSome = true := by
  unfold analyzeScreenshot analyzeScreenshotLogged at h ⊢
  cases hr : runAnalysisPrompt o with
  | error e => simp [hr] at h
  | ok oa =>
    cases oa with
    | none => simp [hr] at h
    | some a =>
      by_cases hv : a.isValidChart = false
      · simp [hr, if_pos hv] at h
      · simp only [hr, if_neg hv] at h ⊢
        cases hp : a.prediction with
        | none => simp [hp] at h
        | some p =>
          simp only [hp]
          rfl

lemma parsePrediction_none_of_violation (rp : RawPrediction)
    (hbad : (rp.direction ≠ "UP" ∧ rp.direction ≠ "DOWN") ∨
      rp.probability < 0 ∨ 1 < rp.probability) :
    parsePrediction rp = none := by
  unfold parsePrediction
  cases hd : parseDirection rp.direction with
  | none => simp only [hd]
  | some d =>
    rcases hbad with ⟨h1, h2⟩ | hb | hb
    · exfalso
      unfold parseDirection at hd
      rw [if_neg h1, if_neg h2] at hd
      exact Option.noConfusion hd
    · simp only [hd]
      rw [if_neg]
      rintro ⟨hge, -⟩
      exact absurd hb (not_lt.mpr hge)
    · simp only [hd]
      rw [if_neg]
      rintro ⟨-, hle⟩
      exact absurd hb (not_lt.mpr hle)

/-! ## Claims -/

/-- C1: for every input payload and every behaviour of the three external model
calls (throwing, returning null output, or returning data), the pipeline
returns a well-typed `AnalysisResult` — the embedded action is a total
function, so no exception escapes — and the result satisfies exactly one of
the five terminal states REJECTED_INVALID_INPUT, REJECTED_NOT_A_CHART,
REJECTED_NO_PREDICTION, UPSTREAM_FAILURE (success=false, isValidChart=false,
carrying the underlying message after the fixed prefix), and SUCCESS. -/
theorem pipeline_exactly_one_terminal_state (o : Oracle) (p : Option String) :
    ExactlyOneTerminal (handleAnalyzeScreenshot o p) := by
  cases p with
  | none => exact exactlyOne_noScreenshot
  | some uri =>
    unfold handleAnalyzeScreenshot handleAnalyzeScreenshotLogged
    by_cases h1 : uri = ""
    · simp only [if_pos h1]
      exact exactlyOne_noScreenshot
    · simp only [if_neg h1]
      by_cases h2 : uri.startsWith "data:image/" = false
      · simp only [if_pos h2]
        exact exactlyOne_invalidFormat
      · simp only [if_neg h2]
        exact exactlyOne_analyze o uri

/-- C2: a payload that does not begin with "data:image/" is rejected with
success=false, isValidChart=false and one of the two user-facing validation
messages, and none of the three external model calls is invoked
(the call log is zero). -/
theorem no_prefix_rejected_without_calls (o : Oracle) (uri : String)
    (h : uri.startsWith "data:image/" = false) :
    (handleAnalyzeScreenshotLogged o (some uri)).1.success = false ∧
    (handleAnalyzeScreenshotLogged o (some uri)).1.isValidChart = false ∧
    ((handleAnalyzeScreenshotLogged o (some uri)).1.error = some noScreenshotMsg ∨
     (handleAnalyzeScreenshotLogged o (some uri)).1.error = some invalidFormatMsg) ∧
    (handleAnalyzeScreenshotLogged o (some uri)).2 = ⟨0, 0, 0⟩ := by
  unfold handleAnalyzeScreenshotLogged
  by_cases h1 : uri = ""
  · simp only [if_pos h1]
    simp
  · simp only [if_neg h1, if_pos h]
    simp

/-- Witness for C2 at the concrete payload "hello". -/
theorem no_prefix_rejected_without_calls_witness :
    ("hello".startsWith "data:image/" = false) ∧
    ((handleAnalyzeScreenshotLogged stubOracle (some "hello")).1.success = false ∧
     (handleAnalyzeScreenshotLogged stubOracle (some "hello")).1.isValidChart = false ∧
     ((handleAnalyzeScreenshotLogged stubOracle (some "hello")).1.error = some noScreenshotMsg ∨
      (handleAnalyzeScreenshotLogged stubOracle (some "hello")).1.error = some invalidFormatMsg) ∧
     (handleAnalyzeScreenshotLogged stubOracle (some "hello")).2 = ⟨0, 0, 0⟩) :=
  ⟨by decide, no_prefix_rejected_without_calls stubOracle "hello" (by decide)⟩

/-- C3: when the (schema-validated) classifier response has isValidChart=false,
the pipeline returns exactly the fixed rejection record with success=false and
isValidChart=false, and the annotate and disclaimer calls are both made zero
times. -/
theorem not_a_chart_rejected (o : Oracle) (uri : String) (a : Analysis)
    (hc : runAnalysisPrompt o = Except.ok (some a))
    (hv : a.isValidChart = false) :
    analyzeScreenshotLogged o uri =
      ({ success := false, isValidChart := false, error := some notAChartMsg },
       ⟨1, 0, 0⟩) := by
  unfold analyzeScreenshotLogged
  simp only [hc]
  rw [if_pos hv]

/-- Witness for C3 at a concrete classifier response. -/
theorem not_a_chart_rejected_witness :
    analyzeScreenshotLogged notAChartOracle "data:image/png;base64,AAAA" =
      ({ success := false, isValidChart := false, error := some notAChartMsg },
       ⟨1, 0, 0⟩) :=
  not_a_chart_rejected notAChartOracle "data:image/png;base64,AAAA" ⟨false, none⟩ rfl rfl

/-- C4: when the classifier response has isValidChart=true but no prediction,
the pipeline returns exactly the distinct prediction-unavailable record with
success=false and isValidChart=true — its flag pair (false, true) differs from
the not-a-chart outcome (false, false) and from the happy path (true, true). -/
theorem missing_prediction_distinct (o : Oracle) (uri : String) (a : Analysis)
    (hc : runAnalysisPrompt o = Except.ok (some a))
    (hv : a.isValidChart = true) (hp : a.prediction = none) :
    analyzeScreenshotLogged o uri =
      ({ success := false, isValidChart := true, error := some noPredictionMsg },
       ⟨1, 0, 0⟩) := by
  unfold analyzeScreenshotLogged
  simp only [hc]
  rw [if_neg (show ¬(a.isValidChart = false) by simp [hv])]
  simp only [hp]

/-- Witness for C4 at a concrete classifier response. -/
theorem missing_prediction_distinct_witness :
    analyzeScreenshotLogged noPredictionOracle "data:image/png;base64,AAAA" =
      ({ success := false, isValidChart := true, error := some noPredictionMsg },
       ⟨1, 0, 0⟩) :=
  missing_prediction_distinct noPredictionOracle "data:image/png;base64,AAAA"
    ⟨true, none⟩ rfl rfl rfl

/-- C5: when classification yields a valid chart with a prediction, and the
annotation call throws, returns no media, or returns output that does not
start with "data:image", the pipeline still returns success=true with
annotatedImage absent. -/
theorem annotate_failure_still_success (o : Oracle) (uri : String) (a : Analysis)
    (p : Prediction)
    (hc : runAnalysisPrompt o = Except.ok (some a))
    (hv : a.isValidChart = true) (hp : a.prediction = some p)
    (hann : (∃ e, o.annotateResp = Except.error e) ∨ o.annotateResp = Except.ok none ∨
      ∃ u, o.annotateResp = Except.ok (some u) ∧ u.startsWith "data:image" = false) :
    (analyzeScreenshot o uri).success = true ∧
    (analyzeScreenshot o uri).annotatedImage = none := by
  have htool : ∃ e, runAnnotateTool o = Except.error e := by
    rcases hann with ⟨e, he⟩ | he | ⟨u, he, hu⟩
    · exact ⟨e, by unfold runAnnotateTool; rw [he]⟩
    · exact ⟨noImageMsg, by unfold runAnnotateTool; rw [he]⟩
    · exact ⟨noImageMsg, by simp [runAnnotateTool, he, hu]⟩
  obtain ⟨e, he⟩ := htool
  unfold analyzeScreenshot analyzeScreenshotLogged
  simp only [hc, if_neg (show ¬(a.isValidChart = false) by simp [hv]), hp, he]
  simp

/-- Witness for C5 at a concrete run whose annotate call throws. -/
theorem annotate_failure_still_success_witness :
    (analyzeScreenshot annotateFailOracle "data:image/png;base64,AAAA").success = true ∧
    (analyzeScreenshot annotateFailOracle "data:image/png;base64,AAAA").annotatedImage =
      none :=
  annotate_failure_still_success annotateFailOracle "data:image/png;base64,AAAA"
    ⟨true, some ⟨Direction.UP, 1⟩⟩ ⟨Direction.UP, 1⟩ rfl rfl rfl
    (Or.inl ⟨"boom", rfl⟩)

/-- C6: when classification yields a valid chart with a prediction and the
disclaimer call throws or returns null, the pipeline still returns
success=true with the fixed fallback disclaimer; moreover in every
success=true result the disclaimer field is populated. -/
theorem disclaimer_failure_fallback (o : Oracle) (uri : String) (a : Analysis)
    (p : Prediction)
    (hc : runAnalysisPrompt o = Except.ok (some a))
    (hv : a.isValidChart = true) (hp : a.prediction = some p)
    (hdisc : (∃ e, o.disclaimResp = Except.error e) ∨ o.disclaimResp = Except.ok none) :
    ((analyzeScreenshot o uri).success = true ∧
     (analyzeScreenshot o uri).disclaimer = some fallbackDisclaimer) ∧
    ∀ (o₂ : Oracle) (u₂ : String), (analyzeScreenshot o₂ u₂).success = true →
      (analyzeScreenshot o₂ u₂).disclaimer.isSome = true := by
  constructor
  · have htool : ∃ e, runGenerateDisclaimer o = Except.error e := by
      rcases hdisc with ⟨e, he⟩ | he
      · exact ⟨e, by unfold runGenerateDisclaimer; rw [he]⟩
      · exact ⟨nullDisclaimerMsg, by unfold runGenerateDisclaimer; rw [he]⟩
    obtain ⟨e, he⟩ := htool
    unfold analyzeScreenshot analyzeScreenshotLogged
    simp only [hc, if_neg (show ¬(a.isValidChart = false) by simp [hv]), hp, he]
    simp
  · exact analyze_success_disclaimer

/-- Witness for C6 at a concrete run whose disclaimer call throws. -/
theorem disclaimer_failure_fallback_witness :
    (analyzeScreenshot disclaimFailOracle "data:image/png;base64,AAAA").success = true ∧
    (analyzeScreenshot disclaimFailOracle "data:image/png;base64,AAAA").disclaimer =
      some fallbackDisclaimer :=
  (disclaimer_failure_fallback disclaimFailOracle "data:image/png;base64,AAAA"
    ⟨true, some ⟨Direction.UP, 1⟩⟩ ⟨Direction.UP, 1⟩ rfl rfl rfl
    (Or.inl ⟨"boom", rfl⟩)).1

/-- C7: a classifier response whose prediction violates the contract
(direction outside UP/DOWN, or probability outside [0,1]) fails schema
validation and yields a failed result: success=false with no prediction
— never clamped or coerced into a success result. -/
theorem contract_violation_fails (o : Oracle) (uri : String) (ra : RawAnalysis)
    (rp : RawPrediction)
    (hc : o.classifyResp = Except.ok (some ra))
    (hrp : ra.prediction = some rp)
    (hbad : (rp.direction ≠ "UP" ∧ rp.direction ≠ "DOWN") ∨
      rp.probability < 0 ∨ 1 < rp.probability) :
    (analyzeScreenshot o uri).success = false ∧
    (analyzeScreenshot o uri).prediction = none := by
  have hpa : parseAnalysis ra = none := by
    unfold parseAnalysis
    simp only [hrp, parsePrediction_none_of_violation rp hbad]
  have hrun : runAnalysisPrompt o = Except.error schemaMismatchMsg := by
    unfold runAnalysisPrompt
    simp only [hc, hpa]
  unfold analyzeScreenshot analyzeScreenshotLogged
  simp only [hrun]
  simp

/-- Witness for C7 at a concrete out-of-contract classifier response. -/
theorem contract_violation_fails_witness :
    (analyzeScreenshot badPredictionOracle "data:image/png;base64,AAAA").success = false ∧
    (analyzeScreenshot badPredictionOracle "data:image/png;base64,AAAA").prediction =
      none :=
  contract_violation_fails badPredictionOracle "data:image/png;base64,AAAA"
    ⟨true, some ⟨"SIDEWAYS", 2⟩⟩ ⟨"SIDEWAYS", 2⟩ rfl rfl
    (Or.inl ⟨by decide, by decide⟩)

/-- C8: the pipeline is deterministic — two runs with the identical payload and
the same external-call behaviour yield identical results in every field. -/
theorem pipeline_deterministic (o₁ o₂ : Oracle) (p₁ p₂ : Option String)
    (ho : o₁ = o₂) (hp : p₁ = p₂) :
    handleAnalyzeScreenshot o₁ p₁ = handleAnalyzeScreenshot o₂ p₂ := by
  rw [ho, hp]

/-- Witness for C8 at a concrete payload and stubbed calls. -/
theorem pipeline_deterministic_witness :
    handleAnalyzeScreenshot stubOracle (some "data:image/png;base64,AAAA") =
      handleAnalyzeScreenshot stubOracle (some "data:image/png;base64,AAAA") :=
  pipeline_deterministic stubOracle stubOracle
    (some "data:image/png;base64,AAAA") (some "data:image/png;base64,AAAA") rfl rfl

/-- C9: after every update the history store holds at most 10 entries, newest
first; when the previous history is already at the 10-entry cap, the
least-recent entry is evicted; loading corrupted stored state resets the store
to empty. -/
theorem history_store_invariant (item : HistoryItem) (prev : List HistoryItem)
    (e : String) :
    (updateHistory item prev).length ≤ 10 ∧
    (updateHistory item prev).head? = some item ∧
    (10 ≤ prev.length → updateHistory item prev = item :: prev.take 9) ∧
    loadHistory (some (Except.error e)) = [] :=
  ⟨List.length_take_le 10 (item :: prev), rfl, fun _ => rfl, rfl⟩

/-- Witness for C9 at a concrete full history of 10 entries. -/
theorem history_store_invariant_witness :
    (updateHistory witnessItem witnessPrev).length ≤ 10 ∧
    (updateHistory witnessItem witnessPrev).head? = some witnessItem ∧
    updateHistory witnessItem witnessPrev = witnessItem :: witnessPrev.take 9 ∧
    loadHistory (some (Except.error "corrupt")) = [] := by
  obtain ⟨h1, h2, h3, h4⟩ := history_store_invariant witnessItem witnessPrev "corrupt"
  exact ⟨h1, h2, h3 (by simp [witnessPrev]), h4⟩

/-- C10: authentication succeeds exactly when the supplied user ID and password
both equal the configured admin credentials (environment values with defaults
"admin" and "password123"); in every other case the result is success=false
with the one fixed generic error message. -/
theorem authenticateUser_correct (envUid envPwd : Option String)
    (userId password : String) :
    ((authenticateUser envUid envPwd userId password).success = true ↔
      (userId = ADMIN_UID envUid ∧ password = ADMIN_PASSWORD envPwd)) ∧
    (¬(userId = ADMIN_UID envUid ∧ password = ADMIN_PASSWORD envPwd) →
      authenticateUser envUid envPwd userId password =
        { success := false, error := some authFailedMsg }) ∧
    ADMIN_UID none = "admin" ∧ ADMIN_PASSWORD none = "password123" := by
  unfold authenticateUser
  by_cases h : userId = ADMIN_UID envUid ∧ password = ADMIN_PASSWORD envPwd
  · rw [if_pos h]
    exact ⟨⟨fun _ => h, fun _ => rfl⟩, fun hn => absurd h hn, rfl, rfl⟩
  · rw [if_neg h]
    exact ⟨⟨fun hs => Bool.noConfusion hs, fun hh => absurd hh h⟩, fun _ => rfl, rfl, rfl⟩

/-- Witness for C10 at concrete mismatching credentials. -/
theorem authenticateUser_correct_witness :
    authenticateUser none none "admin" "wrong" =
      { success := false, error := some authFailedMsg } := by
  obtain ⟨-, h2, -⟩ := authenticateUser_correct none none "admin" "wrong"
  exact h2 (by decide)

end Quotex
